import Mathlib

/-!
Shallow embedding of the core of the `kde-connect-fyne` repository
(Go sources under `internal/protocol`, `internal/network`, `internal/core`,
`internal/events`), together with theorems settling the specification
claims about it.

Bytes are modelled as `Nat` values `< 256` in `List Nat`; Go strings as
`List Char` or `String`; Go maps as association lists with unique keys;
side effects (persistence, event emission) as explicit result fields.
-/

/-! ## Byte-string comparison (Go `bytes.Compare`) -/

/-- Lexicographic comparison of byte strings as unsigned bytes, the
semantics of Go's `bytes.Compare` (a proper prefix is smaller). -/
def compareBytes : List Nat → List Nat → Ordering
  | [], [] => .eq
  | [], _ :: _ => .lt
  | _ :: _, [] => .gt
  | a :: as, b :: bs =>
    if a < b then .lt else if b < a then .gt else compareBytes as bs

/-! ## SHA-256 (Go `crypto/sha256`), over `Nat` words reduced mod `2^32` -/

def add32 (a b : Nat) : Nat := (a + b) % 2 ^ 32

def rotr32 (x n : Nat) : Nat := (x >>> n) ||| ((x <<< (32 - n)) % 2 ^ 32)

def sha256Ch (x y z : Nat) : Nat := (x &&& y) ^^^ (((2 ^ 32 - 1) ^^^ x) &&& z)

def sha256Maj (x y z : Nat) : Nat := (x &&& y) ^^^ (x &&& z) ^^^ (y &&& z)

def bsig0 (x : Nat) : Nat := rotr32 x 2 ^^^ rotr32 x 13 ^^^ rotr32 x 22

def bsig1 (x : Nat) : Nat := rotr32 x 6 ^^^ rotr32 x 11 ^^^ rotr32 x 25

def ssig0 (x : Nat) : Nat := rotr32 x 7 ^^^ rotr32 x 18 ^^^ (x >>> 3)

def ssig1 (x : Nat) : Nat := rotr32 x 17 ^^^ rotr32 x 19 ^^^ (x >>> 10)

def sha256K : List Nat :=
  [1116352408, 1899447441, 3049323471, 3921009573, 961987163,
   1508970993, 2453635748, 2870763221, 3624381080, 310598401,
   607225278, 1426881987, 1925078388, 2162078206, 2614888103,
   3248222580, 3835390401, 4022224774, 264347078, 604807628,
   770255983, 1249150122, 1555081692, 1996064986, 2554220882,
   2821834349, 2952996808, 3210313671, 3336571891, 3584528711,
   113926993, 338241895, 666307205, 773529912, 1294757372,
   1396182291, 1695183700, 1986661051, 2177026350, 2456956037,
   2730485921, 2820302411, 3259730800, 3345764771, 3516065817,
   3600352804, 4094571909, 275423344, 430227734, 506948616,
   659060556, 883997877, 958139571, 1322822218, 1537002063,
   1747873779, 1955562222, 2024104815, 2227730452, 2361852424,
   2428436474, 2756734187, 3204031479, 3329325298]

def sha256H0 : List Nat :=
  [1779033703, 3144134277, 1013904242, 2773480762,
   1359893119, 2600822924, 528734635, 1541459225]

structure Sha256State where
  a : Nat
  b : Nat
  c : Nat
  d : Nat
  e : Nat
  f : Nat
  g : Nat
  h : Nat

def sha256Round (st : Sha256State) (k w : Nat) : Sha256State :=
  let t1 := add32 (add32 (add32 st.h (bsig1 st.e)) (add32 (sha256Ch st.e st.f st.g) k)) w
  let t2 := add32 (bsig0 st.a) (sha256Maj st.a st.b st.c)
  ⟨add32 t1 t2, st.a, st.b, st.c, add32 st.d t1, st.e, st.f, st.g⟩

/-- Extend a 16-word block schedule by `n` further words. -/
def extendSchedule : List Nat → Nat → List Nat
  | w, 0 => w
  | w, n + 1 =>
    let len := w.length
    let x := add32 (add32 (ssig1 (w.getD (len - 2) 0)) (w.getD (len - 7) 0))
                   (add32 (ssig0 (w.getD (len - 15) 0)) (w.getD (len - 16) 0))
    extendSchedule (w ++ [x]) n

def sha256Compress (h : List Nat) (block : List Nat) : List Nat :=
  let w := extendSchedule block 48
  let st0 : Sha256State :=
    ⟨h.getD 0 0, h.getD 1 0, h.getD 2 0, h.getD 3 0,
     h.getD 4 0, h.getD 5 0, h.getD 6 0, h.getD 7 0⟩
  let stF := (sha256K.zip w).foldl (fun st p => sha256Round st p.1 p.2) st0
  [add32 (h.getD 0 0) stF.a, add32 (h.getD 1 0) stF.b,
   add32 (h.getD 2 0) stF.c, add32 (h.getD 3 0) stF.d,
   add32 (h.getD 4 0) stF.e, add32 (h.getD 5 0) stF.f,
   add32 (h.getD 6 0) stF.g, add32 (h.getD 7 0) stF.h]

/-- Big-endian byte rendering of `n` in `len` bytes. -/
def natToBytesBE (n len : Nat) : List Nat :=
  (List.range len).map (fun i => (n >>> (8 * (len - 1 - i))) % 256)

/-- Group bytes into big-endian 32-bit words (trailing fragment dropped;
inputs are always a multiple of 4 bytes). -/
def bytesToWords : List Nat → List Nat
  | a :: b :: c :: d :: rest =>
    (a * 2 ^ 24 + b * 2 ^ 16 + c * 2 ^ 8 + d) :: bytesToWords rest
  | _ => []

/-- Merkle–Damgård padding: `0x80`, zeros, then the 64-bit big-endian bit
length, to a multiple of 64 bytes. -/
def padMessage (msg : List Nat) : List Nat :=
  let L := msg.length
  let k := (119 - L % 64) % 64
  msg ++ [0x80] ++ List.replicate k 0 ++ natToBytesBE (8 * L) 8

/-- Split a word list into 16-word blocks (a trailing fragment is
dropped; padded input is always a multiple of 16 words). -/
def wordsToBlocks : List Nat → List (List Nat)
  | w0 :: w1 :: w2 :: w3 :: w4 :: w5 :: w6 :: w7 ::
    w8 :: w9 :: w10 :: w11 :: w12 :: w13 :: w14 :: w15 :: rest =>
    [w0, w1, w2, w3, w4, w5, w6, w7, w8, w9, w10, w11, w12, w13, w14, w15] ::
      wordsToBlocks rest
  | _ => []

def sha256Blocks (h : List Nat) (blocks : List (List Nat)) : List Nat :=
  blocks.foldl sha256Compress h

def sha256 (msg : List Nat) : List Nat :=
  let hh := sha256Blocks sha256H0 (wordsToBlocks (bytesToWords (padMessage msg)))
  (hh.map (fun x => natToBytesBE x 4)).flatten

/-! ## Hex and decimal rendering (Go `fmt.Sprintf("%x")`, `"%d"`) -/

/-- One lowercase hex digit. -/
def hexDigitChar (d : Nat) : Char :=
  if d < 10 then Char.ofNat (48 + d) else Char.ofNat (87 + d)

/-- Lowercase hex string of a byte string, two digits per byte. -/
def bytesToHex (bs : List Nat) : List Char :=
  (bs.map (fun b => [hexDigitChar (b / 16), hexDigitChar (b % 16)])).flatten

/-- Decimal rendering of a (signed) integer, as Go's `fmt.Sprintf("%d")`. -/
def intDecimal (t : Int) : List Char :=
  if t < 0 then '-' :: Nat.toDigits 10 (-t).toNat else Nat.toDigits 10 t.toNat

/-- ASCII bytes of a character string. -/
def asciiBytes (cs : List Char) : List Nat := cs.map Char.toNat

/-! ## Verification key (`internal/protocol/crypto.go`, `GetVerificationKey`) -/

/-- Embedding of `GetVerificationKey`: its certificate arguments are
represented by their DER-encoded `RawSubjectPublicKeyInfo` byte strings. -/
def GetVerificationKey (pubA pubB : List Nat) (timestamp : Int) : List Char :=
  let combined := if compareBytes pubA pubB = Ordering.lt
    then pubB ++ pubA else pubA ++ pubB
  let withTs := combined ++ asciiBytes (intDecimal timestamp)
  let hexStr := bytesToHex (sha256 withTs)
  let truncated := if hexStr.length > 8 then hexStr.take 8 else hexStr
  truncated.map Char.toUpper

/-- The verification-key algorithm as the specification words it (§4.2):
compare the SPKI blobs lexicographically as unsigned bytes, concatenate the
larger first, append the ASCII decimal timestamp, SHA-256, lowercase hex,
first 8 hex characters, uppercased. -/
def verificationKeySpec (A B : List Nat) (t : Int) : List Char :=
  let combined := if compareBytes A B = Ordering.lt then B ++ A else A ++ B
  let withTimestamp := combined ++ asciiBytes (intDecimal t)
  ((bytesToHex (sha256 withTimestamp)).take 8).map Char.toUpper

/-! ## Device-id generation (`core.go`, `NewEngine`):
`fmt.Sprintf("fyne-%030x", time.Now().UnixNano())` -/

/-- Lowercase hex digits of a natural number, most significant first,
fuelled for structural recursion (`natHex` supplies enough fuel). -/
def natHexAux : Nat → Nat → List Char
  | 0, _ => []
  | fuel + 1, n =>
    if n < 16 then [hexDigitChar n]
    else natHexAux fuel (n / 16) ++ [hexDigitChar (n % 16)]

/-- Lowercase hex rendering of a natural number, most significant digit
first, `"0"` for zero — Go's `%x` verb. -/
def natHex (n : Nat) : List Char := natHexAux (n + 1) n

/-- Go's `%030x` verb: hex, zero-padded on the left to width 30. -/
def sprintf030x (n : Nat) : List Char :=
  List.replicate (30 - (natHex n).length) '0' ++ natHex n

/-- The freshly generated device id of `NewEngine`, as a function of the
`UnixNano` clock sample. -/
def genDeviceId (n : Nat) : List Char := "fyne-".data ++ sprintf030x n

/-! ## JSON values and Go `encoding/json` decoding into the wire structs -/

inductive JVal where
  | null
  | bool (b : Bool)
  | num (n : Int)
  | str (s : String)
  | arr (elems : List JVal)
  | obj (fields : List (String × JVal))

/-- Wire envelope (`internal/protocol/packets.go`). `body` is Go's
`json.RawMessage`: it captures any JSON value verbatim, `none` standing for
a `nil` raw message (field absent). -/
structure Packet where
  id : Int
  type : String
  body : Option JVal

/-- One JSON object field applied to a `Packet` being decoded, Go
`encoding/json` semantics: unknown keys are ignored, `null` leaves a
field untouched, a type mismatch is an error, and `json.RawMessage` (the
`body` field) accepts any value including `null`. -/
def decodeFieldInto (p : Packet) (k : String) (v : JVal) : Except Unit Packet :=
  if k = "id" then
    match v with
    | .num n => .ok { p with id := n }
    | .null => .ok p
    | _ => .error ()
  else if k = "type" then
    match v with
    | .str s => .ok { p with type := s }
    | .null => .ok p
    | _ => .error ()
  else if k = "body" then .ok { p with body := some v }
  else .ok p

/-- Field-by-field decoding of a JSON object into a `Packet`; later
duplicate keys overwrite earlier ones. -/
def decodePacketFields : Packet → List (String × JVal) → Except Unit Packet
  | p, [] => .ok p
  | p, (k, v) :: rest =>
    match decodeFieldInto p k v with
    | .ok p1 => decodePacketFields p1 rest
    | .error e => .error e

/-- `json.Unmarshal` / `json.Decoder.Decode` into a zero `Packet`: a JSON
object decodes field-wise with zero-value defaults (`id = 0`, `type = ""`,
`body = nil`); `null` is a no-op; any other JSON value is an error. -/
def decodePacket (v : JVal) : Except Unit Packet :=
  match v with
  | .obj fields => decodePacketFields ⟨0, "", none⟩ fields
  | .null => .ok ⟨0, "", none⟩
  | _ => .error ()

/-- Identity body (`internal/protocol/packets.go`). -/
structure IdentityBody where
  deviceId : String
  deviceName : String
  deviceType : String
  protocolVersion : Int
  tcpPort : Int
  bluetoothAddress : String
  incomingCapabilities : List String
  outgoingCapabilities : List String
deriving DecidableEq

def defaultIdentity : IdentityBody := ⟨"", "", "", 0, 0, "", [], []⟩

/-- Decode a JSON array into a `[]string`: elements must be strings
(`null` yields the zero string). -/
def decodeStringList : List JVal → Except Unit (List String)
  | [] => .ok []
  | .str s :: rest => (decodeStringList rest).map (s :: ·)
  | .null :: rest => (decodeStringList rest).map ("" :: ·)
  | _ => .error ()

def unmarshalIdentityFields : IdentityBody → List (String × JVal) → Except Unit IdentityBody
  | i, [] => .ok i
  | i, (k, v) :: rest =>
    if k = "deviceId" then
      match v with
      | .str s => unmarshalIdentityFields { i with deviceId := s } rest
      | .null => unmarshalIdentityFields i rest
      | _ => .error ()
    else if k = "deviceName" then
      match v with
      | .str s => unmarshalIdentityFields { i with deviceName := s } rest
      | .null => unmarshalIdentityFields i rest
      | _ => .error ()
    else if k = "deviceType" then
      match v with
      | .str s => unmarshalIdentityFields { i with deviceType := s } rest
      | .null => unmarshalIdentityFields i rest
      | _ => .error ()
    else if k = "protocolVersion" then
      match v with
      | .num n => unmarshalIdentityFields { i with protocolVersion := n } rest
      | .null => unmarshalIdentityFields i rest
      | _ => .error ()
    else if k = "tcpPort" then
      match v with
      | .num n => unmarshalIdentityFields { i with tcpPort := n } rest
      | .null => unmarshalIdentityFields i rest
      | _ => .error ()
    else if k = "bluetoothAddress" then
      match v with
      | .str s => unmarshalIdentityFields { i with bluetoothAddress := s } rest
      | .null => unmarshalIdentityFields i rest
      | _ => .error ()
    else if k = "incomingCapabilities" then
      match v with
      | .arr es =>
        match decodeStringList es with
        | .ok ss => unmarshalIdentityFields { i with incomingCapabilities := ss } rest
        | .error _ => .error ()
      | .null => unmarshalIdentityFields i rest
      | _ => .error ()
    else if k = "outgoingCapabilities" then
      match v with
      | .arr es =>
        match decodeStringList es with
        | .ok ss => unmarshalIdentityFields { i with outgoingCapabilities := ss } rest
        | .error _ => .error ()
      | .null => unmarshalIdentityFields i rest
      | _ => .error ()
    else unmarshalIdentityFields i rest

/-- `json.Unmarshal` of a packet body into an `IdentityBody`. -/
def unmarshalIdentity (v : JVal) : Except Unit IdentityBody :=
  match v with
  | .obj fields => unmarshalIdentityFields defaultIdentity fields
  | .null => .ok defaultIdentity
  | _ => .error ()

/-! ## Association lists with string keys — Go map semantics -/

def lookupA {α : Type} (l : List (String × α)) (k : String) : Option α :=
  match l with
  | [] => none
  | (k', v) :: rest => if k' = k then some v else lookupA rest k

def containsKeyA {α : Type} (l : List (String × α)) (k : String) : Bool :=
  l.any (fun p => p.1 = k)

/-- Go map assignment `m[k] = v`: replace the existing entry, never
duplicate the key. -/
def insertA {α : Type} (l : List (String × α)) (k : String) (v : α) : List (String × α) :=
  if containsKeyA l k then l.map (fun p => if p.1 = k then (k, v) else p)
  else l ++ [(k, v)]

/-- Go map `delete(m, k)`. -/
def eraseA {α : Type} (l : List (String × α)) (k : String) : List (String × α) :=
  l.filter (fun p => p.1 ≠ k)

/-! ## Engine state machine (`internal/core/core.go`) -/

/-- An IP/port pair, standing for `net.UDPAddr` (only its IP and Port are
ever read by the engine). -/
structure Addr where
  ip : String
  port : Int
deriving DecidableEq

structure DiscoveredDevice where
  identity : IdentityBody
  addr : Addr
deriving DecidableEq

structure PairedDeviceInfo where
  identity : IdentityBody
  lastIP : String
  lastPort : Int
deriving DecidableEq

structure PairRequest where
  remoteIP : String
  identity : IdentityBody
  verificationKey : List Char
deriving DecidableEq

inductive Event where
  | deviceDiscovered (d : DiscoveredDevice)
  | pairRequest (r : PairRequest)
  | pairingChanged (id : String)
  | sftpOffer (id : String)
deriving DecidableEq

def Event.isPairRequest : Event → Bool
  | .pairRequest _ => true
  | _ => false

/-- The engine's shared maps (the fields the settled claims touch); an
active connection is identified by its pointer, modelled as a `Nat`. -/
structure EngineState where
  identity : IdentityBody
  discoveredDevices : List (String × DiscoveredDevice)
  pairedDevices : List (String × PairedDeviceInfo)
  activeConns : List (String × Nat)
  pendingPairing : List String
deriving DecidableEq

/-- Result of one engine operation: the new state, whether `SaveConfig`
was called, and the events emitted, in order. -/
structure EngineResult where
  state : EngineState
  persisted : Bool
  events : List Event
deriving DecidableEq

/-- A live connection as the engine sees it (`network.Connection`): the Go
pointer identity, the device id and identity captured at handshake, the
remote IP of the underlying socket, and the TLS peer leaf certificate
available from the session state. -/
structure Connection where
  ptr : Nat
  deviceId : String
  remoteIdentity : IdentityBody
  remoteIP : String
  peerCert : List Nat
deriving DecidableEq

/-- `Engine.IsPaired`: membership in the paired map, nothing else. -/
def IsPaired (s : EngineState) (deviceId : String) : Bool :=
  (lookupA s.pairedDevices deviceId).isSome

/-- `Engine.addDiscoveredDevice`: record the sighting; if the device is
paired and its `LastIP` or `DeviceName` differs, refresh the paired record
(address and identity snapshot) and persist; emit `device_discovered`. -/
def addDiscoveredDevice (s : EngineState) (identity : IdentityBody) (addr : Addr) : EngineResult :=
  let dev : DiscoveredDevice := ⟨identity, addr⟩
  let s1 := { s with discoveredDevices := insertA s.discoveredDevices identity.deviceId dev }
  match lookupA s1.pairedDevices identity.deviceId with
  | some info =>
    if info.lastIP ≠ addr.ip ∨ info.identity.deviceName ≠ identity.deviceName then
      { state := { s1 with
          pairedDevices := insertA s1.pairedDevices identity.deviceId ⟨identity, addr.ip, addr.port⟩ },
        persisted := true,
        events := [.deviceDiscovered dev] }
    else ⟨s1, false, [.deviceDiscovered dev]⟩
  | none => ⟨s1, false, [.deviceDiscovered dev]⟩

/-- `Engine.handleNewConnection`: store the connection in `activeConns`
(replacing any previous one for the same device id), then synthesize a
discovery record from the connection's remote identity and socket IP. -/
def handleNewConnection (s : EngineState) (c : Connection) : EngineResult :=
  let s1 := { s with activeConns := insertA s.activeConns c.deviceId c.ptr }
  addDiscoveredDevice s1 c.remoteIdentity ⟨c.remoteIP, c.remoteIdentity.tcpPort⟩

/-- The `OnDisconnect` closure installed by `Engine.handleNewConnection`:
delete the `activeConns` entry only when it still holds the very
connection reporting the disconnect. -/
def handleNewConnectionDisconnect (s : EngineState) (deviceId : String) (ptr : Nat) : EngineState :=
  if lookupA s.activeConns deviceId = some ptr
  then { s with activeConns := eraseA s.activeConns deviceId }
  else s

/-- The `OnDisconnect` closure installed by `Engine.getOrConnect`: delete
the `activeConns` entry unconditionally. -/
def getOrConnectDisconnect (s : EngineState) (deviceId : String) : EngineState :=
  { s with activeConns := eraseA s.activeConns deviceId }

/-- `Engine.MarkAsPaired`: snapshot the discovered record into the paired
map (no-op on the map when the device was never discovered), then persist
and emit `pairing_changed` unconditionally. -/
def MarkAsPaired (s : EngineState) (deviceId : String) : EngineResult :=
  let s1 := match lookupA s.discoveredDevices deviceId with
    | some dev =>
      { s with pairedDevices :=
          insertA s.pairedDevices deviceId ⟨dev.identity, dev.addr.ip, dev.addr.port⟩ }
    | none => s
  ⟨s1, true, [.pairingChanged deviceId]⟩

/-- Outcome of `Engine.Unpair`; `isError` models the `"device not paired"`
error return. The best-effort outbound `pair=false` packet is I/O and is
not part of the state model. -/
structure UnpairResult where
  result : EngineResult
  isError : Bool
deriving DecidableEq

/-- `Engine.Unpair`: error out without touching anything when the device
is not paired; otherwise delete, persist, and emit `pairing_changed`. -/
def Unpair (s : EngineState) (deviceId : String) : UnpairResult :=
  if (lookupA s.pairedDevices deviceId).isSome then
    { result := ⟨{ s with pairedDevices := eraseA s.pairedDevices deviceId },
                 true, [.pairingChanged deviceId]⟩,
      isError := false }
  else ⟨⟨s, false, []⟩, true⟩

/-- The discovery callback registered by `Engine.Start` with
`network.ListenDiscovery`: only identity packets whose body unmarshals and
whose `deviceId` differs from our own reach `addDiscoveredDevice`. -/
def discoveryHandler (s : EngineState) (p : Packet) (addr : Addr) : EngineResult :=
  if p.type = "kdeconnect.identity" then
    match p.body with
    | some bodyJson =>
      match unmarshalIdentity bodyJson with
      | .ok idBody =>
        if idBody.deviceId ≠ s.identity.deviceId then addDiscoveredDevice s idBody addr
        else ⟨s, false, []⟩
      | .error _ => ⟨s, false, []⟩
    | none => ⟨s, false, []⟩
  else ⟨s, false, []⟩

/-- One UDP datagram through `network.ListenDiscovery` (unmarshal the
datagram as a `Packet`, drop it on parse failure) and into the engine's
discovery callback with the datagram source address. -/
def handleDatagram (s : EngineState) (datagram : JVal) (addr : Addr) : EngineResult :=
  match decodePacket datagram with
  | .ok p => discoveryHandler s p addr
  | .error _ => ⟨s, false, []⟩

/-! ## Event bus (`internal/events`) -/

/-- The emitter's listener table; listener values are opaque (`L` stands
for the Go closure, compared by the identity the model gives it). -/
structure EventEmitter (L : Type) where
  listeners : List (String × List L)

/-- `EventEmitter.On`: append to the listener slice for the event. -/
def EventEmitter.On {L : Type} (em : EventEmitter L) (event : String) (listener : L) :
    EventEmitter L :=
  ⟨insertA em.listeners event ((lookupA em.listeners event).getD [] ++ [listener])⟩

/-- `EventEmitter.Off`: the body of the source function is empty — it
returns with the table untouched. -/
def EventEmitter.Off {L : Type} (em : EventEmitter L) (_event : String) (_listener : L) :
    EventEmitter L :=
  em

/-- `EventEmitter.Emit`: the listeners invoked (each in its own
goroutine) are exactly the slice registered for the event. -/
def EventEmitter.Emit {L : Type} (em : EventEmitter L) (event : String) : List L :=
  (lookupA em.listeners event).getD []

/-! ## Helper lemmas -/

theorem compareBytes_swap (a : List Nat) : ∀ b, compareBytes b a = (compareBytes a b).swap := by
  induction a with
  | nil => intro b; cases b <;> rfl
  | cons x xs ih =>
    intro b
    cases b with
    | nil => rfl
    | cons y ys =>
      simp only [compareBytes]
      rcases Nat.lt_trichotomy x y with h | h | h
      · rw [if_neg (by omega), if_pos h, if_pos h]; rfl
      · rw [if_neg (by omega), if_neg (by omega), if_neg (by omega), if_neg (by omega)]
        exact ih ys
      · rw [if_pos h, if_neg (by omega), if_pos h]; rfl

theorem eq_of_compareBytes_eq : ∀ {a b : List Nat}, compareBytes a b = .eq → a = b
  | [], [], _ => rfl
  | [], _ :: _, h => by simp [compareBytes] at h
  | _ :: _, [], h => by simp [compareBytes] at h
  | x :: xs, y :: ys, h => by
    simp only [compareBytes] at h
    by_cases h1 : x < y
    · rw [if_pos h1] at h; exact absurd h (by simp)
    · by_cases h2 : y < x
      · rw [if_neg h1, if_pos h2] at h; exact absurd h (by simp)
      · rw [if_neg h1, if_neg h2] at h
        have : x = y := by omega
        rw [this, eq_of_compareBytes_eq h]

set_option maxRecDepth 100000 in
/-- Sanity check of the SHA-256 embedding against the FIPS 180-4 test
vector for `"abc"`. -/
theorem sha256_abc_vector :
    bytesToHex (sha256 (asciiBytes "abc".data)) =
      "ba7816bf8f01cfea414140de5dae2223b00361a396177a9cb410ff61f20015ad".data := by
  decide

/-! ## Claim theorems -/

/-- C1. `GetVerificationKey` computes exactly the algorithm the
specification states: lexicographic unsigned comparison of the two SPKI
blobs, larger-first concatenation, ASCII decimal timestamp appended,
SHA-256, lowercase hex, first 8 characters, uppercased. -/
theorem GetVerificationKey_matches_spec (A B : List Nat) (t : Int) :
    GetVerificationKey A B t = verificationKeySpec A B t := by
  unfold GetVerificationKey verificationKeySpec
  by_cases h :
      (bytesToHex (sha256 ((if compareBytes A B = Ordering.lt then B ++ A else A ++ B) ++
        asciiBytes (intDecimal t)))).length > 8
  · simp [h]
  · simp only [h, if_neg, ite_false]
    rw [List.take_of_length_le (by omega)]

/-- C4. The verification key is symmetric in its two certificate
arguments: swapping the SPKI blobs yields the same key. -/
theorem GetVerificationKey_symm (A B : List Nat) (t : Int) :
    GetVerificationKey A B t = GetVerificationKey B A t := by
  unfold GetVerificationKey
  rcases h : compareBytes A B with _ | _ | _
  · have h' : compareBytes B A = .gt := by rw [compareBytes_swap, h]; rfl
    simp [h, h']
  · have hAB : A = B := eq_of_compareBytes_eq h
    subst hAB
    simp
  · have h' : compareBytes B A = .lt := by rw [compareBytes_swap, h]; rfl
    simp [h, h']

theorem containsKeyA_cons {α : Type} (k' : String) (v' : α) (tl : List (String × α)) (k : String) :
    containsKeyA ((k', v') :: tl) k = (decide (k' = k) || containsKeyA tl k) := by
  simp [containsKeyA]

theorem lookupA_cons {α : Type} (k' : String) (v' : α) (tl : List (String × α)) (k : String) :
    lookupA ((k', v') :: tl) k = if k' = k then some v' else lookupA tl k := rfl

theorem lookupA_map_replace {α : Type} (l : List (String × α)) (k : String) (v : α)
    (h : containsKeyA l k = true) :
    lookupA (l.map (fun p => if p.1 = k then (k, v) else p)) k = some v := by
  induction l with
  | nil => simp [containsKeyA] at h
  | cons hd tl ih =>
    obtain ⟨k', v'⟩ := hd
    rw [containsKeyA_cons] at h
    by_cases hk : k' = k
    · subst hk
      simp [lookupA_cons]
    · have h' : containsKeyA tl k = true := by simpa [hk] using h
      simp only [List.map_cons]
      rw [if_neg hk, lookupA_cons, if_neg hk]
      exact ih h'

theorem lookupA_append_single {α : Type} (l : List (String × α)) (k : String) (v : α)
    (h : containsKeyA l k = false) :
    lookupA (l ++ [(k, v)]) k = some v := by
  induction l with
  | nil => simp [lookupA_cons, lookupA]
  | cons hd tl ih =>
    obtain ⟨k', v'⟩ := hd
    rw [containsKeyA_cons] at h
    have hk : ¬ k' = k := by
      intro hkk
      simp [hkk] at h
    have h' : containsKeyA tl k = false := by simpa [hk] using h
    rw [List.cons_append, lookupA_cons, if_neg hk]
    exact ih h'

theorem lookupA_insertA_self {α : Type} (l : List (String × α)) (k : String) (v : α) :
    lookupA (insertA l k v) k = some v := by
  unfold insertA
  by_cases h : containsKeyA l k
  · rw [if_pos h]; exact lookupA_map_replace l k v h
  · rw [if_neg h]
    exact lookupA_append_single l k v (by simpa using h)

theorem keys_map_replace {α : Type} (l : List (String × α)) (k : String) (v : α) :
    (l.map (fun p => if p.1 = k then (k, v) else p)).map Prod.fst = l.map Prod.fst := by
  induction l with
  | nil => rfl
  | cons hd tl ih =>
    obtain ⟨k', v'⟩ := hd
    by_cases hk : k' = k
    · subst hk
      simp only [List.map_cons, ih]
      simp
    · simp only [List.map_cons]
      rw [if_neg hk]
      simp [ih]

theorem not_mem_keys_of_not_containsKeyA {α : Type} (l : List (String × α)) (k : String)
    (h : containsKeyA l k = false) : k ∉ l.map Prod.fst := by
  intro hmem
  simp only [List.mem_map] at hmem
  rcases hmem with ⟨p, hp, hpk⟩
  simp only [containsKeyA, List.any_eq_false, decide_eq_true_eq] at h
  exact h p hp hpk

theorem nodupKeys_insertA {α : Type} (l : List (String × α)) (k : String) (v : α)
    (h : (l.map Prod.fst).Nodup) : ((insertA l k v).map Prod.fst).Nodup := by
  unfold insertA
  by_cases hc : containsKeyA l k
  · rw [if_pos hc, keys_map_replace]; exact h
  · rw [if_neg hc]
    have hk : k ∉ l.map Prod.fst :=
      not_mem_keys_of_not_containsKeyA l k (by simpa using hc)
    simp only [List.map_append, List.map_cons, List.map_nil]
    exact List.Nodup.append h (List.nodup_singleton k) (by simpa using hk)

theorem natHexAux_length_le :
    ∀ (fuel n k : Nat), n < fuel → n < 16 ^ (k + 1) → (natHexAux fuel n).length ≤ k + 1 := by
  intro fuel
  induction fuel with
  | zero => intro n k h _; omega
  | succ fuel ih =>
    intro n k hn hk
    simp only [natHexAux]
    by_cases h16 : n < 16
    · rw [if_pos h16]; simp
    · rw [if_neg h16]
      have hdiv : n / 16 < n := Nat.div_lt_self (by omega) (by omega)
      cases k with
      | zero =>
        rw [pow_one] at hk
        omega
      | succ k' =>
        have h1 : n / 16 < 16 ^ (k' + 1) := by
          rw [Nat.div_lt_iff_lt_mul (by omega : 0 < 16)]
          calc n < 16 ^ (k' + 2) := hk
          _ = 16 ^ (k' + 1) * 16 := by ring
        have h2 := ih (n / 16) k' (by omega) h1
        simp only [List.length_append, List.length_cons, List.length_nil]
        omega

/-- The sixteen characters Go's `%x` can emit. -/
def hexChars : List Char := "0123456789abcdef".data

theorem hexDigitChar_mem (d : Nat) (hd : d < 16) : hexDigitChar d ∈ hexChars := by
  interval_cases d <;> decide

theorem natHexAux_subset :
    ∀ (fuel n : Nat), ∀ c ∈ natHexAux fuel n, c ∈ hexChars := by
  intro fuel
  induction fuel with
  | zero => intro n c hc; simp [natHexAux] at hc
  | succ fuel ih =>
    intro n c hc
    simp only [natHexAux] at hc
    by_cases h16 : n < 16
    · rw [if_pos h16] at hc
      simp only [List.mem_singleton] at hc
      exact hc ▸ hexDigitChar_mem n h16
    · rw [if_neg h16] at hc
      rcases List.mem_append.mp hc with hc | hc
      · exact ih (n / 16) c hc
      · simp only [List.mem_singleton] at hc
        exact hc ▸ hexDigitChar_mem (n % 16) (Nat.mod_lt n (by omega))

/-! ## Concrete fixtures -/

def sampleIdentity : IdentityBody := ⟨"remote-1", "Phone", "phone", 8, 1716, "", [], []⟩

def selfIdentity : IdentityBody := ⟨"self-1", "Desk", "desktop", 8, 1716, "", [], []⟩

def samplePairedInfo : PairedDeviceInfo := ⟨sampleIdentity, "10.0.0.2", 1716⟩

/-- A state in which `remote-1` is paired (snapshot taken at `10.0.0.2:1716`). -/
def sampleState : EngineState :=
  ⟨selfIdentity, [], [("remote-1", samplePairedInfo)], [], []⟩

/-- `sampleState` with `remote-1` also currently discovered. -/
def sampleStateDiscovered : EngineState :=
  ⟨selfIdentity, [("remote-1", ⟨sampleIdentity, ⟨"10.0.0.2", 1716⟩⟩)],
   [("remote-1", samplePairedInfo)], [], []⟩

/-- A connection from the paired peer whose leaf certificate is arbitrary
(no fingerprint was ever recorded for comparison). -/
def mismatchConn : Connection := ⟨1, "remote-1", sampleIdentity, "10.0.0.3", [9, 9, 9]⟩

/-- `activeConns` after a newer connection `C2` (pointer 2) replaced the
older `C1` (pointer 1) for `remote-1`. -/
def stateAfterReplace : EngineState := ⟨selfIdentity, [], [], [("remote-1", 2)], []⟩

/-! ## Engine lemmas -/

theorem addDiscoveredDevice_events (s : EngineState) (identity : IdentityBody) (addr : Addr) :
    (addDiscoveredDevice s identity addr).events = [.deviceDiscovered ⟨identity, addr⟩] := by
  unfold addDiscoveredDevice
  dsimp only
  split
  · split
    · rfl
    · rfl
  · rfl

/-- C2 (counterexample). In `sampleState` the peer `remote-1` is paired;
`mismatchConn` presents a leaf certificate that matches no recorded
fingerprint (none is ever recorded), yet after the engine registers the
connection the peer is still treated as paired and no `pair_request`
event is surfaced — contradicting the claim that such a session is
treated as unpaired and surfaces a pair request anew. -/
theorem cert_mismatch_still_paired_counterexample :
    IsPaired (handleNewConnection sampleState mismatchConn).state "remote-1" = true ∧
    (handleNewConnection sampleState mismatchConn).events.any Event.isPairRequest = false := by
  decide

/-- C2 (amended). The engine treats a peer as paired iff its `device_id`
is in the paired map; the TLS leaf certificate is never consulted: the
outcome of registering a connection is independent of its certificate,
and registering a connection never surfaces a `pair_request`. -/
theorem paired_is_map_membership_cert_ignored (s : EngineState) (c : Connection)
    (fp : List Nat) (deviceId : String) :
    IsPaired s deviceId = (lookupA s.pairedDevices deviceId).isSome ∧
    handleNewConnection s { c with peerCert := fp } = handleNewConnection s c ∧
    (handleNewConnection s c).events.any Event.isPairRequest = false := by
  refine ⟨rfl, rfl, ?_⟩
  unfold handleNewConnection
  rw [addDiscoveredDevice_events]
  rfl

/-- C3 (evaluation at the failing input). After `C2` (pointer 2) replaced
`C1` (pointer 1) for `remote-1`, firing `C1`'s `OnDisconnect`: the handler
installed by `handleNewConnection` checks the stored pointer and keeps
`C2`, but the handler installed by `getOrConnect` deletes unconditionally
and purges `C2` — so connections registered by `getOrConnect` violate the
claimed invariant. -/
theorem disconnect_race_evaluation :
    lookupA (handleNewConnectionDisconnect stateAfterReplace "remote-1" 1).activeConns
      "remote-1" = some 2 ∧
    lookupA (getOrConnectDisconnect stateAfterReplace "remote-1").activeConns
      "remote-1" = none := by
  decide

/-- The condition under which `addDiscoveredDevice` refreshes and
persists the paired record: the device is paired and its `LastIP` or
`DeviceName` differs. The observed port is *not* part of the test. -/
def pairedRefreshNeeded (s : EngineState) (identity : IdentityBody) (addr : Addr) : Bool :=
  match lookupA s.pairedDevices identity.deviceId with
  | some info => decide (info.lastIP ≠ addr.ip ∨ info.identity.deviceName ≠ identity.deviceName)
  | none => false

/-- An address differing from `samplePairedInfo` only in the port. -/
def portOnlyAddr : Addr := ⟨"10.0.0.2", 1717⟩

/-- C5 (counterexample). `remote-1` is paired with `last_port = 1716`; a
discovery event arrives from the same IP but port 1717 with the same
device name. The `(last_ip, last_port)` pair changed, so the claim
demands an update and a persist — but the code checks only `LastIP` and
`DeviceName`, leaves the paired record unchanged and persists nothing. -/
theorem addDiscovered_port_only_counterexample :
    (addDiscoveredDevice sampleState sampleIdentity portOnlyAddr).persisted = false ∧
    (addDiscoveredDevice sampleState sampleIdentity portOnlyAddr).state.pairedDevices =
      sampleState.pairedDevices := by
  decide

/-- C5 (amended). On a discovery event for a paired device, the paired
record is refreshed (identity snapshot, `last_ip`, `last_port`) and the
configuration persisted iff the observed `last_ip` or the `device_name`
changed; a change of the port alone triggers neither, and when no refresh
fires the paired map is untouched and nothing is persisted. -/
theorem addDiscovered_paired_update (s : EngineState) (identity : IdentityBody) (addr : Addr) :
    (addDiscoveredDevice s identity addr).persisted = pairedRefreshNeeded s identity addr ∧
    (addDiscoveredDevice s identity addr).state.pairedDevices =
      (if pairedRefreshNeeded s identity addr
       then insertA s.pairedDevices identity.deviceId ⟨identity, addr.ip, addr.port⟩
       else s.pairedDevices) := by
  unfold addDiscoveredDevice pairedRefreshNeeded
  dsimp only
  cases h : lookupA s.pairedDevices identity.deviceId with
  | none => simp [h]
  | some info =>
    by_cases hc : info.lastIP ≠ addr.ip ∨ info.identity.deviceName ≠ identity.deviceName
    · simp [h, hc]
    · simp [h, hc]

/-- C6 (counterexample). At the concrete clock sample
`UnixNano = 1760000000000000000` the generated device id
`fyne-<%030x>` has length 35, not 36 as claimed. -/
theorem genDeviceId_length_counterexample :
    (genDeviceId 1760000000000000000).length ≠ 36 := by
  decide

/-- C6 (amended). For any clock sample below `16^30` (every real
`UnixNano` value by far), the generated device id is `"fyne-"` followed
by 30 lowercase hex characters, total length 35. -/
theorem genDeviceId_shape (n : Nat) (h : n < 16 ^ 30) :
    (genDeviceId n).length = 35 ∧
    (genDeviceId n).take 5 = "fyne-".data ∧
    (genDeviceId n).drop 5 = sprintf030x n ∧
    (sprintf030x n).length = 30 ∧
    ∀ c ∈ sprintf030x n, c ∈ hexChars := by
  have hlen : (natHex n).length ≤ 30 := by
    have h30 := natHexAux_length_le (n + 1) n 29 (by omega) (by simpa using h)
    simpa [natHex] using h30
  have hpad : (sprintf030x n).length = 30 := by
    simp only [sprintf030x, List.length_append, List.length_replicate]
    omega
  have hfive : ("fyne-".data).length = 5 := rfl
  refine ⟨?_, ?_, ?_, hpad, ?_⟩
  · simp only [genDeviceId, List.length_append, hfive, hpad]
  · rw [genDeviceId, show (5 : Nat) = ("fyne-".data).length from rfl, List.take_left]
  · rw [genDeviceId, show (5 : Nat) = ("fyne-".data).length from rfl, List.drop_left]
  · intro c hc
    rcases List.mem_append.mp hc with hc | hc
    · have : c = '0' := List.eq_of_mem_replicate hc
      rw [this]; decide
    · exact natHexAux_subset (n + 1) n c hc

/-- C6 (witness). The amended shape theorem applied at the concrete clock
sample `1760000000000000000`. -/
theorem genDeviceId_shape_witness :
    (genDeviceId 1760000000000000000).length = 35 ∧
    (genDeviceId 1760000000000000000).take 5 = "fyne-".data :=
  ⟨(genDeviceId_shape 1760000000000000000 (by decide)).1,
   (genDeviceId_shape 1760000000000000000 (by decide)).2.1⟩

/-- The value Go's decoder leaves in `Packet.body`: the last `"body"`
field of the object, raw, or the initial value if none occurs. -/
def lastBodyField : Option JVal → List (String × JVal) → Option JVal
  | b, [] => b
  | b, (k, v) :: rest =>
    if k = "body" then lastBodyField (some v) rest else lastBodyField b rest

/-- C7 (counterexample). A well-formed JSON object with a `body` but no
`type` field is *not* rejected: the decoder yields a packet with the
empty type string, contradicting the claimed `ProtocolError`. -/
theorem decode_missing_type_counterexample :
    decodePacket (JVal.obj [("body", JVal.obj [])]) =
      .ok ⟨0, "", some (JVal.obj [])⟩ := rfl

theorem decodePacketFields_no_type_id :
    ∀ (fields : List (String × JVal)) (p : Packet),
      "type" ∉ fields.map Prod.fst → "id" ∉ fields.map Prod.fst →
      decodePacketFields p fields = .ok ⟨p.id, p.type, lastBodyField p.body fields⟩ := by
  intro fields
  induction fields with
  | nil => intro p _ _; rfl
  | cons hd tl ih =>
    intro p h1 h2
    obtain ⟨k, v⟩ := hd
    have hk1 : ¬ k = "type" := by intro hcontra; exact h1 (by simp [hcontra])
    have hk2 : ¬ k = "id" := by intro hcontra; exact h2 (by simp [hcontra])
    have h1' : "type" ∉ tl.map Prod.fst := by
      intro hmem; exact h1 (by simp [hmem])
    have h2' : "id" ∉ tl.map Prod.fst := by
      intro hmem; exact h2 (by simp [hmem])
    have hfield : decodeFieldInto p k v =
        .ok (if k = "body" then { p with body := some v } else p) := by
      delta decodeFieldInto
      rw [if_neg hk2, if_neg hk1]
      by_cases hb : k = "body"
      · rw [if_pos hb, if_pos hb]
      · rw [if_neg hb, if_neg hb]
    simp only [decodePacketFields, hfield, lastBodyField]
    by_cases hb : k = "body"
    · rw [if_pos hb, if_pos hb]
      exact ih { p with body := some v } h1' h2'
    · rw [if_neg hb, if_neg hb]
      exact ih p h1' h2'

/-- C7 (amended). The decoder requires neither `type` nor `body`: any
JSON object whose fields include no `type` and no `id` key decodes
successfully to a packet with `id = 0` (the claimed default), the empty
`type` string, and whatever raw value the last `body` field carried (or
none) — no `ProtocolError` exists in the code. -/
theorem decodePacket_defaults (fields : List (String × JVal))
    (h1 : "type" ∉ fields.map Prod.fst) (h2 : "id" ∉ fields.map Prod.fst) :
    decodePacket (JVal.obj fields) = .ok ⟨0, "", lastBodyField none fields⟩ :=
  decodePacketFields_no_type_id fields ⟨0, "", none⟩ h1 h2

/-- C7 (witness). The amended decode theorem applied to the concrete
object `{"body": {}}`. -/
theorem decodePacket_defaults_witness :
    decodePacket (JVal.obj [("body", JVal.obj [])]) =
      .ok ⟨0, "", lastBodyField none [("body", JVal.obj [])]⟩ :=
  decodePacket_defaults [("body", JVal.obj [])] (by decide) (by decide)

/-- C8. Unpairing a device that is not in the paired map is a complete
no-op — the state (paired map included) is returned unchanged, nothing is
persisted and no `pairing_changed` is emitted (only the
`"device not paired"` error is returned) — and marking an
already-present device as paired never duplicates the map entry: the
paired map's keys stay duplicate-free. -/
theorem unpair_noop_pair_no_duplicate (s : EngineState) (deviceId : String) :
    (lookupA s.pairedDevices deviceId = none →
      Unpair s deviceId = ⟨⟨s, false, []⟩, true⟩) ∧
    ((s.pairedDevices.map Prod.fst).Nodup →
      (((MarkAsPaired s deviceId).state.pairedDevices).map Prod.fst).Nodup) := by
  constructor
  · intro h
    simp [Unpair, h]
  · intro h
    unfold MarkAsPaired
    dsimp only
    cases hd : lookupA s.discoveredDevices deviceId with
    | none => simpa [hd] using h
    | some dev =>
      simp only [hd]
      exact nodupKeys_insertA _ _ _ h

/-- C8 (witness). Unpairing the never-paired id `ghost` leaves
`sampleStateDiscovered` untouched with no persistence and no events; and
re-marking the already-paired `remote-1` as paired keeps the paired map's
keys duplicate-free. -/
theorem unpair_noop_pair_no_duplicate_witness :
    Unpair sampleStateDiscovered "ghost" = ⟨⟨sampleStateDiscovered, false, []⟩, true⟩ ∧
    (((MarkAsPaired sampleStateDiscovered "remote-1").state.pairedDevices).map
      Prod.fst).Nodup :=
  ⟨(unpair_noop_pair_no_duplicate sampleStateDiscovered "ghost").1 (by decide),
   (unpair_noop_pair_no_duplicate sampleStateDiscovered "remote-1").2 (by decide)⟩

/-- C9. For a datagram that parses to an identity packet whose body
unmarshals: if the carried `deviceId` equals our own the engine does
nothing — no discovered record, no persistence, no event; otherwise the
identity is handed to `addDiscoveredDevice` together with the datagram's
source address. -/
theorem discovery_self_filter (s : EngineState) (j : JVal) (addr : Addr)
    (p : Packet) (b : JVal) (idB : IdentityBody)
    (hp : decodePacket j = .ok p)
    (ht : p.type = "kdeconnect.identity")
    (hb : p.body = some b)
    (hid : unmarshalIdentity b = .ok idB) :
    (idB.deviceId = s.identity.deviceId → handleDatagram s j addr = ⟨s, false, []⟩) ∧
    (idB.deviceId ≠ s.identity.deviceId →
      handleDatagram s j addr = addDiscoveredDevice s idB addr) := by
  constructor <;> intro h <;>
    simp only [handleDatagram, discoveryHandler, hp, ht, hb, hid, h] <;>
    simp [h]

def selfDatagramBody : JVal := JVal.obj [("deviceId", JVal.str "self-1")]

def otherDatagramBody : JVal := JVal.obj [("deviceId", JVal.str "remote-2")]

def selfDatagram : JVal :=
  JVal.obj [("type", JVal.str "kdeconnect.identity"), ("body", selfDatagramBody)]

def otherDatagram : JVal :=
  JVal.obj [("type", JVal.str "kdeconnect.identity"), ("body", otherDatagramBody)]

def selfPacket : Packet := ⟨0, "kdeconnect.identity", some selfDatagramBody⟩

def otherPacket : Packet := ⟨0, "kdeconnect.identity", some otherDatagramBody⟩

def sampleAddr : Addr := ⟨"10.0.0.9", 1716⟩

/-- C9 (witness). A datagram carrying our own `self-1` id is dropped
without effect; one carrying `remote-2` reaches `addDiscoveredDevice`
with the datagram's source address. -/
theorem discovery_self_filter_witness :
    handleDatagram sampleState selfDatagram sampleAddr = ⟨sampleState, false, []⟩ ∧
    handleDatagram sampleState otherDatagram sampleAddr =
      addDiscoveredDevice sampleState { defaultIdentity with deviceId := "remote-2" } sampleAddr :=
  ⟨(discovery_self_filter sampleState selfDatagram sampleAddr selfPacket selfDatagramBody
      { defaultIdentity with deviceId := "self-1" } rfl rfl rfl rfl).1 rfl,
   (discovery_self_filter sampleState otherDatagram sampleAddr otherPacket otherDatagramBody
      { defaultIdentity with deviceId := "remote-2" } rfl rfl rfl rfl).2 (by decide)⟩

/-- C10. `EventEmitter.Off` is a no-op — it returns the emitter with its
listener table untouched — so a listener registered with `On` is still
among the listeners invoked by a subsequent `Emit` of that event even
after `Off` was called on it. -/
theorem eventEmitter_off_noop {L : Type} (em : EventEmitter L) (event : String) (l : L) :
    EventEmitter.Off em event l = em ∧
    l ∈ EventEmitter.Emit (EventEmitter.Off (EventEmitter.On em event l) event l) event := by
  refine ⟨rfl, ?_⟩
  show l ∈ (lookupA (insertA em.listeners event
    ((lookupA em.listeners event).getD [] ++ [l])) event).getD []
  rw [lookupA_insertA_self]
  simp

set_option maxRecDepth 100000 in
/-- Sanity check of the full verification-key pipeline against the
specification's scenario 1: SPKI blobs `0x3001` and `0x3082` with
timestamp 1700000000 give `75E3FD70` (checked against `crypto/sha256`). -/
theorem verification_key_scenario :
    GetVerificationKey [0x30, 0x01] [0x30, 0x82] 1700000000 = "75E3FD70".data := by
  decide
